import Mathlib

/-!
# Verification of the AI video-generation pipeline (backend/server.py)

Shallow embedding of the core pipeline of `src/backend/server.py`:
script generation (`generate_script_with_deepseek`), per-segment asset
generation with local fallbacks (`generate_image_with_dalle`,
`generate_audio_with_tts`), video assembly (`create_video_from_assets`),
the background status machine (`process_video_generation`), and the two
read endpoints (`get_video_file`, `list_videos`).

External collaborators (the DeepSeek/OpenAI providers, python's `json`
and `re` libraries, the MongoDB store, moviepy's renderer and the file
system) are modelled as environment oracles; the control flow, the data
transformations and every raise/catch of the source are embedded
faithfully.  Exceptions are modelled structurally by the inductive `Err`:
each constructor stands for one `raise` site (or one library exception
class) of the source, and the catch-all wrappers of the source become the
`scriptGenerationFailed` / `videoCreationFailed` wrapping constructors.
-/

namespace AiVideo

/-- JSON values, as handled by python's `json` module. -/
inductive Json where
  | null
  | bool (b : Bool)
  | num (q : ℚ)
  | str (s : String)
  | arr (elems : List Json)
  | obj (fields : List (String × Json))

/-- Dictionary key access `j[key]` (None when absent or not an object). -/
def Json.lookup : Json → String → Option Json
  | .obj fields, key => fields.lookup key
  | _, _ => none

/-- View a JSON value as a string. -/
def Json.asString : Json → Option String
  | .str s => some s
  | _ => none

/-- View a JSON value as an array. -/
def Json.asArr : Json → Option (List Json)
  | .arr xs => some xs
  | _ => none

/-- Exceptions of the pipeline, one constructor per raise site or library
exception class of `server.py`.  `scriptGenerationFailed` is the catch-all
wrapper of `generate_script_with_deepseek` (`HTTPException(500, "Script
generation failed: ...")`), `videoCreationFailed` the one of
`create_video_from_assets`. -/
inductive Err where
  | providerError (status : Nat) (body : String)
  | jsonDecode
  | keyError (key : String)
  | shapeError
  | failedParseScriptJson
  | missingAssets (segmentId : Nat)
  | renderFailed
  | fallbackImageFailed
  | fallbackAudioFailed
  | scriptGenerationFailed (inner : Err)
  | videoCreationFailed (inner : Err)
deriving DecidableEq, Repr

/-- `class ScriptSegment(BaseModel)` of server.py (durations as ℚ). -/
structure ScriptSegment where
  segment_id : Nat
  content : String
  duration : ℚ
  image_prompt : String
deriving DecidableEq, Repr

/-- `class VideoScript(BaseModel)` of server.py. -/
structure VideoScript where
  segments : List ScriptSegment
  total_duration : ℚ
deriving DecidableEq, Repr

/-- Environment of one `generate_script_with_deepseek` call: the DeepSeek
HTTP response (`dsStatus`, raw text `dsText`, decoded body `dsBody`, with
`none` meaning `response.json()` raises) and the behaviour of python's
`json.loads` and of the `re.search` fence extraction on strings. -/
structure ScriptEnv where
  dsStatus : Nat
  dsText : String
  dsBody : Option Json
  jsonLoads : String → Option Json
  fenceExtract : String → Option String

/-- `result["choices"][0]["message"]["content"]` (None when any step
raises KeyError/IndexError/TypeError). -/
def messageContent (body : Json) : Option String := do
  let choices ← (body.lookup "choices").bind Json.asArr
  let first ← choices.get? 0
  let msg ← first.lookup "message"
  let content ← msg.lookup "content"
  content.asString

/-- Lines 144-154 of server.py: `json.loads` directly, on failure search
for a ```json fenced block and `json.loads` its contents; raise
`HTTPException(500, "Failed to parse script JSON")` when no fence is
found, and let the second `json.loads` raise `JSONDecodeError` itself. -/
def parseScriptJson (env : ScriptEnv) (content : String) : Except Err Json :=
  match env.jsonLoads content with
  | some j => .ok j
  | none =>
    match env.fenceExtract content with
    | some inner =>
      match env.jsonLoads inner with
      | some j => .ok j
      | none => .error .jsonDecode
    | none => .error .failedParseScriptJson

/-- `seg["content"]`, `seg["image_prompt"]` of one parsed segment
(KeyError when absent, shape error when not a string). -/
def segmentFields (j : Json) : Except Err (String × String) :=
  match j.lookup "content" with
  | none => .error (.keyError "content")
  | some c =>
    match j.lookup "image_prompt" with
    | none => .error (.keyError "image_prompt")
    | some ip =>
      match c.asString, ip.asString with
      | some cs, some ips => .ok (cs, ips)
      | _, _ => .error .shapeError

/-- Field extraction over the whole `script_json["segments"]` array, in
order, failing at the first bad element (as the python loop does). -/
def extractFields : List Json → Except Err (List (String × String))
  | [] => .ok []
  | j :: rest =>
    match segmentFields j with
    | .error e => .error e
    | .ok p =>
      match extractFields rest with
      | .error e => .error e
      | .ok ps => .ok (p :: ps)

/-- Lines 156-164 of server.py: `for i, seg in enumerate(...)`, building
`ScriptSegment(segment_id=i+1, content=..., duration=segment_duration,
image_prompt=...)`.  The index `i` starts at 0. -/
def mkSegments (segment_duration : ℚ) : List (String × String) → Nat → List ScriptSegment
  | [], _ => []
  | (c, ip) :: rest, i =>
    { segment_id := i + 1, content := c, duration := segment_duration,
      image_prompt := ip } :: mkSegments segment_duration rest (i + 1)

/-- `script_json["segments"]` (KeyError when absent, shape error when not
an array). -/
def scriptSegmentsJson (sj : Json) : Except Err (List Json) :=
  match sj.lookup "segments" with
  | none => .error (.keyError "segments")
  | some v =>
    match v.asArr with
    | none => .error .shapeError
    | some xs => .ok xs

/-- Body of the `try` block of `generate_script_with_deepseek` (lines
96-166): status check, body decode, content extraction, JSON parse with
fence fallback, conversion to `VideoScript`.  The `prompt` only shapes
the outbound request, whose answer the environment supplies. -/
def generateScriptInner (env : ScriptEnv) (prompt : String) (duration segments : Nat) :
    Except Err VideoScript :=
  let segment_duration : ℚ := (duration : ℚ) / (segments : ℚ)
  let _ := prompt
  if env.dsStatus ≠ 200 then
    .error (.providerError 503 env.dsText)
  else
    match env.dsBody with
    | none => .error .jsonDecode
    | some body =>
      match messageContent body with
      | none => .error (.keyError "choices.0.message.content")
      | some content =>
        match parseScriptJson env content with
        | .error e => .error e
        | .ok sj =>
          match scriptSegmentsJson sj with
          | .error e => .error e
          | .ok xs =>
            match extractFields xs with
            | .error e => .error e
            | .ok ps =>
              .ok { segments := mkSegments segment_duration ps 0,
                    total_duration := (duration : ℚ) }

/-- `generate_script_with_deepseek` (lines 94-170): the inner body, with
every exception re-raised as `HTTPException(500, "Script generation
failed: ...")` by the catch-all handler of lines 168-170. -/
def generate_script_with_deepseek (env : ScriptEnv) (prompt : String)
    (duration segments : Nat) : Except Err VideoScript :=
  match generateScriptInner env prompt duration segments with
  | .ok v => .ok v
  | .error e => .error (.scriptGenerationFailed e)

/-- `IMAGES_DIR / f"{video_id}_segment_{segment_id}.jpg"`. -/
def imagePath (video_id : String) (segment_id : Nat) : String :=
  "/app/backend/generated_images/" ++ video_id ++ "_segment_" ++ toString segment_id ++ ".jpg"

/-- `AUDIO_DIR / f"{video_id}_segment_{segment_id}.mp3"`. -/
def audioPath (video_id : String) (segment_id : Nat) : String :=
  "/app/backend/generated_audio/" ++ video_id ++ "_segment_" ++ toString segment_id ++ ".mp3"

/-- `VIDEOS_DIR / f"{video_id}.mp4"`. -/
def videoPath (video_id : String) : String :=
  "/app/backend/generated_videos/" ++ video_id ++ ".mp4"

/-- Environment of the asset stage: per segment id, whether the image /
audio provider call succeeds and whether the local fallback renderer /
synthesizer succeeds. -/
structure AssetEnv where
  imageProviderOk : Nat → Bool
  imageFallbackOk : Nat → Bool
  audioProviderOk : Nat → Bool
  audioFallbackOk : Nat → Bool

/-- `create_placeholder_image` (lines 205-225): renders a placeholder at
the same deterministic path; its own failure raises
`HTTPException(500, "Image generation completely failed: ...")`. -/
def create_placeholder_image (env : AssetEnv) (prompt : String) (segment_id : Nat)
    (video_id : String) : Except Err String :=
  let _ := prompt
  if env.imageFallbackOk segment_id then .ok (imagePath video_id segment_id)
  else .error .fallbackImageFailed

/-- `generate_image_with_dalle` (lines 172-203): on any provider error the
catch-all falls back to `create_placeholder_image` at the same path. -/
def generate_image_with_dalle (env : AssetEnv) (prompt : String) (segment_id : Nat)
    (video_id : String) : Except Err String :=
  if env.imageProviderOk segment_id then .ok (imagePath video_id segment_id)
  else create_placeholder_image env prompt segment_id video_id

/-- `create_placeholder_audio` (lines 246-279). -/
def create_placeholder_audio (env : AssetEnv) (text : String) (segment_id : Nat)
    (video_id : String) : Except Err String :=
  let _ := text
  if env.audioFallbackOk segment_id then .ok (audioPath video_id segment_id)
  else .error .fallbackAudioFailed

/-- `generate_audio_with_tts` (lines 227-244). -/
def generate_audio_with_tts (env : AssetEnv) (text : String) (segment_id : Nat)
    (video_id : String) : Except Err String :=
  if env.audioProviderOk segment_id then .ok (audioPath video_id segment_id)
  else create_placeholder_audio env text segment_id video_id

/-- The 2×N asset-generation results gathered by `asyncio.gather` at line
365, in script order. -/
def assetResults (env : AssetEnv) (video_id : String) (script : VideoScript) :
    List (Except Err String × Except Err String) :=
  script.segments.map fun seg =>
    (generate_image_with_dalle env seg.image_prompt seg.segment_id video_id,
     generate_audio_with_tts env seg.content seg.segment_id video_id)

/-- Whether some Except result is an error. -/
def isErr {α : Type} : Except Err α → Bool
  | .error _ => true
  | .ok _ => false

/-- `asyncio.gather` raises iff some gathered task raised. -/
def assetStageFails (env : AssetEnv) (video_id : String) (script : VideoScript) : Bool :=
  (assetResults env video_id script).any fun p => isErr p.1 || isErr p.2

/-- The exception `asyncio.gather` propagates: the first failed task's
error (script order; `shapeError` is a dead default, never reached when
`assetStageFails` holds). -/
def firstAssetError (env : AssetEnv) (video_id : String) (script : VideoScript) : Err :=
  match (assetResults env video_id script).findSome? fun p =>
    match p.1 with
    | .error e => some e
    | .ok _ =>
      match p.2 with
      | .error e => some e
      | .ok _ => none
  with
  | some e => e
  | none => .shapeError

/-- Environment of `create_video_from_assets`: the file system seen at
assembly time (assets are addressed by segment id for the fixed
generation), the measured duration `AudioFileClip(...).duration` of each
audio file, and whether `write_videofile` succeeds. -/
structure AsmEnv where
  imageExists : Nat → Bool
  audioExists : Nat → Bool
  audioDuration : Nat → ℚ
  renderOk : Bool

/-- The clip objects `create_video_from_assets` creates: one
`AudioFileClip` and one `ImageClip` per segment, plus the concatenated
final clip. -/
inductive Handle where
  | audioClip (segment_id : Nat)
  | imageClip (segment_id : Nat)
  | finalClip
deriving DecidableEq, Repr

/-- One per-segment clip as appended to `clips` (lines 293-301): a static
image clip of duration `actual_duration` (the measured audio duration)
with the audio attached. -/
structure SegClip where
  segment_id : Nat
  visual_duration : ℚ
  audio_duration : ℚ
deriving DecidableEq, Repr

/-- The per-segment loop of lines 286-301, in script order: check both
asset files exist (first gap raises `HTTPException(500, "Missing assets
for segment k")`), then create the audio and image clips.  Returns the
handles created, the clips built, and the first missing segment id if
any; on a gap the loop stops, keeping the handles already created. -/
def buildClips (env : AsmEnv) : List ScriptSegment → List Handle × List SegClip × Option Nat
  | [] => ([], [], none)
  | seg :: rest =>
    if env.imageExists seg.segment_id && env.audioExists seg.segment_id then
      let r := buildClips env rest
      (.audioClip seg.segment_id :: .imageClip seg.segment_id :: r.1,
       { segment_id := seg.segment_id,
         visual_duration := env.audioDuration seg.segment_id,
         audio_duration := env.audioDuration seg.segment_id } :: r.2.1,
       r.2.2)
    else ([], [], some seg.segment_id)

/-- Observable outcome of `create_video_from_assets`: its return/raise,
whether `write_videofile` was reached, the clip handles created, the
`close()` calls issued (in order), and the per-segment clips built. -/
structure AsmOut where
  result : Except Err String
  render_attempted : Bool
  created : List Handle
  closed : List Handle
  clips : List SegClip
deriving Repr

/-- `create_video_from_assets` (lines 281-328).  On the success path the
code closes `final_video` and then each element of `clips` (the image
clips); any exception skips the cleanup of lines 319-322 entirely (there
is no finally block) and is re-raised wrapped as
`HTTPException(500, "Video creation failed: ...")`. -/
def create_video_from_assets (env : AsmEnv) (video_id : String) (script : VideoScript) :
    AsmOut :=
  let r := buildClips env script.segments
  match r.2.2 with
  | some k =>
    { result := .error (.videoCreationFailed (.missingAssets k)),
      render_attempted := false, created := r.1, closed := [], clips := r.2.1 }
  | none =>
    let created := r.1 ++ [Handle.finalClip]
    if env.renderOk then
      { result := .ok (videoPath video_id), render_attempted := true, created := created,
        closed := Handle.finalClip :: r.2.1.map fun c => Handle.imageClip c.segment_id,
        clips := r.2.1 }
    else
      { result := .error (.videoCreationFailed .renderFailed), render_attempted := true,
        created := created, closed := [], clips := r.2.1 }

/-- The status enum persisted on a generation record. -/
inductive Status where
  | processing
  | generating_script
  | generating_assets
  | creating_video
  | completed
  | failed
deriving DecidableEq, Repr

/-- One `db.video_generations.update_one` call of
`process_video_generation`: the fields its `$set` document carries. -/
structure DbUpdate where
  status : Status
  script : Option VideoScript
  video_url : Option String
  error : Option Err
deriving DecidableEq, Repr

/-- The `failed` update of lines 385-388. -/
def failedUpdate (e : Err) : DbUpdate :=
  { status := .failed, script := none, video_url := none, error := some e }

/-- Environment of one whole pipeline run. -/
structure PipelineEnv where
  scriptEnv : ScriptEnv
  assetEnv : AssetEnv
  asmEnv : AsmEnv

/-- `process_video_generation` (lines 330-388) as the sequence of record
updates it issues.  The record was created with status `processing`; the
store's updates are modelled as succeeding (the store is an external
durable collaborator).  Any exception of a stage is caught at lines
383-388 and turned into the final `failed` update. -/
def process_video_generation (env : PipelineEnv) (video_id prompt : String)
    (duration segments : Nat) : List DbUpdate :=
  let u1 : DbUpdate :=
    { status := .generating_script, script := none, video_url := none, error := none }
  match generate_script_with_deepseek env.scriptEnv prompt duration segments with
  | .error e => [u1, failedUpdate e]
  | .ok script =>
    let u2 : DbUpdate :=
      { status := .generating_assets, script := some script, video_url := none, error := none }
    if assetStageFails env.assetEnv video_id script then
      [u1, u2, failedUpdate (firstAssetError env.assetEnv video_id script)]
    else
      let u3 : DbUpdate :=
        { status := .creating_video, script := none, video_url := none, error := none }
      match (create_video_from_assets env.asmEnv video_id script).result with
      | .error e => [u1, u2, u3, failedUpdate e]
      | .ok _ =>
        [u1, u2, u3,
         { status := .completed, script := none,
           video_url := some ("/api/videos/" ++ video_id ++ ".mp4"), error := none }]

/-- `class VideoGeneration(BaseModel)` of server.py (timestamps as ℕ). -/
structure VideoGeneration where
  id : String
  prompt : String
  duration : Nat
  segments : Nat
  status : Status
  video_url : Option String
  script : Option VideoScript
  created_at : Nat
deriving DecidableEq, Repr

/-- `get_video_file` (lines 442-453): serves `VIDEOS_DIR / f"{id}.mp4"`
when it exists, else 404.  The route receives the record store (`records`)
like every route but never reads it. -/
def get_video_file (records : String → Option VideoGeneration)
    (fileExists : String → Bool) (video_id : String) : Except Nat String :=
  let _ := records
  if fileExists (videoPath video_id) then .ok (videoPath video_id)
  else .error 404

/-- Mongo's `sort("created_at", -1)` comparator. -/
def moreRecent (a b : VideoGeneration) : Bool :=
  b.created_at ≤ a.created_at

/-- `list_videos` (lines 430-440):
`find().sort("created_at", -1).to_list(100)` — all records sorted most
recent first, truncated to the first 100. -/
def list_videos (records : List VideoGeneration) : List VideoGeneration :=
  (records.mergeSort moreRecent).take 100

/-! ## Helper lemmas -/

theorem moreRecent_trans (a b c : VideoGeneration) (hab : moreRecent a b = true)
    (hbc : moreRecent b c = true) : moreRecent a c = true := by
  simp only [moreRecent, decide_eq_true_eq] at *
  omega

theorem moreRecent_total (a b : VideoGeneration) :
    (moreRecent a b || moreRecent b a) = true := by
  simp only [moreRecent, Bool.or_eq_true, decide_eq_true_eq]
  omega

/-! ## Claim theorems -/

/-- C9: `get_video_file` serves `<id>.mp4` iff the file exists on disk,
returns 404 otherwise, never consults the generation record store (its
result is invariant under any change of the store), and can serve the
file while the stored record's status is not `completed`. -/
theorem get_video_file_ignores_record (records : String → Option VideoGeneration)
    (fileExists : String → Bool) (video_id : String) :
    (get_video_file records fileExists video_id = .ok (videoPath video_id) ↔
      fileExists (videoPath video_id) = true)
    ∧ (get_video_file records fileExists video_id = .error 404 ↔
      fileExists (videoPath video_id) = false)
    ∧ (∀ records2 : String → Option VideoGeneration,
        get_video_file records fileExists video_id
          = get_video_file records2 fileExists video_id)
    ∧ (fileExists (videoPath video_id) = true →
        ∀ rec : VideoGeneration, records video_id = some rec →
          rec.status ≠ Status.completed →
          get_video_file records fileExists video_id = .ok (videoPath video_id)) := by
  refine ⟨?_, ?_, ?_, ?_⟩ <;>
    unfold get_video_file <;>
    cases h : fileExists (videoPath video_id) <;>
    simp [h]

/-- C10: `list_videos` returns at most 100 records: its length is
`min 100 (number of records)`, when more than 100 records exist exactly
100 are returned, and the returned records together with the silently
omitted rest permute the whole store, every returned record being at
least as recently created as every omitted one. -/
theorem list_videos_truncates_to_100 (records : List VideoGeneration) :
    (list_videos records).length = min 100 records.length
    ∧ (records.length > 100 → (list_videos records).length = 100)
    ∧ ∃ omitted : List VideoGeneration,
        records.Perm (list_videos records ++ omitted)
        ∧ ∀ x ∈ list_videos records, ∀ y ∈ omitted, y.created_at ≤ x.created_at := by
  refine ⟨?_, ?_, ?_⟩
  · simp [list_videos, List.length_take, List.length_mergeSort]
  · intro h
    simp [list_videos, List.length_take, List.length_mergeSort]
    omega
  · refine ⟨(records.mergeSort moreRecent).drop 100, ?_, ?_⟩
    · have hperm := List.mergeSort_perm records moreRecent
      show records.Perm ((records.mergeSort moreRecent).take 100
        ++ (records.mergeSort moreRecent).drop 100)
      rw [List.take_append_drop]
      exact hperm.symm
    · have hsorted : List.Pairwise (fun a b => moreRecent a b = true)
          (records.mergeSort moreRecent) :=
        List.sorted_mergeSort moreRecent_trans moreRecent_total records
      have hsplit := List.take_append_drop 100 (records.mergeSort moreRecent)
      rw [← hsplit] at hsorted
      have hcross := (List.pairwise_append.mp hsorted).2.2
      intro x hx y hy
      have hxy := hcross x hx y hy
      simpa [moreRecent] using hxy

/-- The legal single-step moves of the status machine: the four forward
edges, plus a move to `failed` from any non-terminal state. -/
def stepOk (a b : Status) : Prop :=
  (a = .processing ∧ b = .generating_script) ∨
  (a = .generating_script ∧ b = .generating_assets) ∨
  (a = .generating_assets ∧ b = .creating_video) ∨
  (a = .creating_video ∧ b = .completed) ∨
  (b = .failed ∧ a ≠ .completed ∧ a ≠ .failed)

/-- C1: for every environment, the statuses a generation record passes
through (starting at `processing`, then one per update issued by
`process_video_generation`) form a chain of legal forward moves — no
stage skipped, no backward move; `completed` and `failed` occur only as
the final state; and every update that sets `generating_assets` persists
the generated script in the same update, so the script is on the record
from the moment that status is observable. -/
instance (a b : Status) : Decidable (stepOk a b) :=
  inferInstanceAs (Decidable
    ((a = .processing ∧ b = .generating_script) ∨
     (a = .generating_script ∧ b = .generating_assets) ∨
     (a = .generating_assets ∧ b = .creating_video) ∨
     (a = .creating_video ∧ b = .completed) ∨
     (b = .failed ∧ a ≠ .completed ∧ a ≠ .failed)))

theorem status_machine_monotonic (env : PipelineEnv) (video_id prompt : String)
    (d s : Nat) :
    List.Chain' stepOk
      (Status.processing ::
        (process_video_generation env video_id prompt d s).map DbUpdate.status)
    ∧ (∀ st ∈ (Status.processing ::
          (process_video_generation env video_id prompt d s).map DbUpdate.status).dropLast,
        st ≠ Status.completed ∧ st ≠ Status.failed)
    ∧ (∀ u ∈ process_video_generation env video_id prompt d s,
        u.status = Status.generating_assets →
          ∃ sc, generate_script_with_deepseek env.scriptEnv prompt d s = .ok sc
            ∧ u.script = some sc) := by
  rcases hg : generate_script_with_deepseek env.scriptEnv prompt d s with e | script
  · have htr : process_video_generation env video_id prompt d s
        = [{ status := .generating_script, script := none, video_url := none, error := none },
           failedUpdate e] := by
      simp [process_video_generation, hg]
    refine ⟨?_, ?_, ?_⟩
    · rw [htr]
      simp [List.chain'_cons, stepOk, failedUpdate]
    · rw [htr]
      show ∀ st ∈ ([Status.processing, .generating_script, .failed] : List Status).dropLast,
        st ≠ Status.completed ∧ st ≠ Status.failed
      decide
    · intro u hu hstat
      rw [htr] at hu
      simp only [List.mem_cons, List.not_mem_nil, or_false] at hu
      rcases hu with rfl | rfl <;> exact absurd hstat (by simp [failedUpdate])
  · cases hf : assetStageFails env.assetEnv video_id script
    · rcases ha : (create_video_from_assets env.asmEnv video_id script).result with e | p
      · have htr : process_video_generation env video_id prompt d s
            = [{ status := .generating_script, script := none, video_url := none, error := none },
               { status := .generating_assets, script := some script, video_url := none,
                 error := none },
               { status := .creating_video, script := none, video_url := none, error := none },
               failedUpdate e] := by
          simp [process_video_generation, hg, hf, ha]
        refine ⟨?_, ?_, ?_⟩
        · rw [htr]
          simp [List.chain'_cons, stepOk, failedUpdate]
        · rw [htr]
          show ∀ st ∈ ([Status.processing, .generating_script, .generating_assets,
              .creating_video, .failed] : List Status).dropLast,
            st ≠ Status.completed ∧ st ≠ Status.failed
          decide
        · intro u hu hstat
          rw [htr] at hu
          simp only [List.mem_cons, List.not_mem_nil, or_false] at hu
          rcases hu with rfl | rfl | rfl | rfl
          · exact absurd hstat (by simp)
          · exact ⟨script, rfl, rfl⟩
          · exact absurd hstat (by simp)
          · exact absurd hstat (by simp [failedUpdate])
      · have htr : process_video_generation env video_id prompt d s
            = [{ status := .generating_script, script := none, video_url := none, error := none },
               { status := .generating_assets, script := some script, video_url := none,
                 error := none },
               { status := .creating_video, script := none, video_url := none, error := none },
               { status := .completed, script := none,
                 video_url := some ("/api/videos/" ++ video_id ++ ".mp4"), error := none }] := by
          simp [process_video_generation, hg, hf, ha]
        refine ⟨?_, ?_, ?_⟩
        · rw [htr]
          simp [List.chain'_cons, stepOk, failedUpdate]
        · rw [htr]
          show ∀ st ∈ ([Status.processing, .generating_script, .generating_assets,
              .creating_video, .completed] : List Status).dropLast,
            st ≠ Status.completed ∧ st ≠ Status.failed
          decide
        · intro u hu hstat
          rw [htr] at hu
          simp only [List.mem_cons, List.not_mem_nil, or_false] at hu
          rcases hu with rfl | rfl | rfl | rfl
          · exact absurd hstat (by simp)
          · exact ⟨script, rfl, rfl⟩
          · exact absurd hstat (by simp)
          · exact absurd hstat (by simp)
    · have htr : process_video_generation env video_id prompt d s
          = [{ status := .generating_script, script := none, video_url := none, error := none },
             { status := .generating_assets, script := some script, video_url := none,
               error := none },
             failedUpdate (firstAssetError env.assetEnv video_id script)] := by
        simp [process_video_generation, hg, hf]
      refine ⟨?_, ?_, ?_⟩
      · rw [htr]
        simp [List.chain'_cons, stepOk, failedUpdate]
      · rw [htr]
        show ∀ st ∈ ([Status.processing, .generating_script, .generating_assets,
            .failed] : List Status).dropLast,
          st ≠ Status.completed ∧ st ≠ Status.failed
        decide
      · intro u hu hstat
        rw [htr] at hu
        simp only [List.mem_cons, List.not_mem_nil, or_false] at hu
        rcases hu with rfl | rfl | rfl
        · exact absurd hstat (by simp)
        · exact ⟨script, rfl, rfl⟩
        · exact absurd hstat (by simp [failedUpdate])

theorem mkSegments_length (sd : ℚ) (ps : List (String × String)) (i : Nat) :
    (mkSegments sd ps i).length = ps.length := by
  induction ps generalizing i with
  | nil => rfl
  | cons p rest ih =>
    cases p
    simp [mkSegments, ih]

theorem mkSegments_ids (sd : ℚ) (ps : List (String × String)) (i : Nat) :
    (mkSegments sd ps i).map ScriptSegment.segment_id = List.range' (i + 1) ps.length := by
  induction ps generalizing i with
  | nil => rfl
  | cons p rest ih =>
    cases p
    simp only [mkSegments, List.map_cons, List.length_cons, List.range'_succ, ih]

theorem mkSegments_duration (sd : ℚ) (ps : List (String × String)) (i : Nat) :
    ∀ seg ∈ mkSegments sd ps i, seg.duration = sd := by
  induction ps generalizing i with
  | nil =>
    intro seg h
    cases h
  | cons p rest ih =>
    cases p
    intro seg h
    rcases List.mem_cons.mp h with rfl | h2
    · rfl
    · exact ih (i + 1) seg h2

theorem extractFields_length (xs : List Json) (ps : List (String × String))
    (h : extractFields xs = .ok ps) : ps.length = xs.length := by
  induction xs generalizing ps with
  | nil =>
    unfold extractFields at h
    injection h with h2
    subst h2
    rfl
  | cons j rest ih =>
    unfold extractFields at h
    rcases hf : segmentFields j with e | p <;> rw [hf] at h
    · cases h
    · rcases hr : extractFields rest with e | qs <;> rw [hr] at h
      · cases h
      · injection h with h2
        subst h2
        simp [ih qs hr]

/-- Destructured shape of a successful `generate_script_with_deepseek`
run: the successful provider status, the decoded body, the extracted
content, the parsed script JSON, its segments array, the extracted
fields, and the resulting script value. -/
theorem generate_script_ok_shape (env : ScriptEnv) (prompt : String) (d s : Nat)
    (script : VideoScript)
    (h : generate_script_with_deepseek env prompt d s = .ok script) :
    env.dsStatus = 200
    ∧ ∃ body content sj xs ps,
        env.dsBody = some body
        ∧ messageContent body = some content
        ∧ parseScriptJson env content = .ok sj
        ∧ scriptSegmentsJson sj = .ok xs
        ∧ extractFields xs = .ok ps
        ∧ script = { segments := mkSegments ((d : ℚ) / (s : ℚ)) ps 0,
                     total_duration := (d : ℚ) } := by
  unfold generate_script_with_deepseek at h
  rcases hi : generateScriptInner env prompt d s with e | v <;> rw [hi] at h
  · cases h
  · injection h with hv
    subst hv
    simp only [generateScriptInner] at hi
    split at hi
    next hne => cases hi
    next hst2 =>
      split at hi
      next hbnone => cases hi
      next body hb =>
        split at hi
        next hcnone => cases hi
        next content hc =>
          split at hi
          next e hp => cases hi
          next sj hp =>
            split at hi
            next e hsj => cases hi
            next xs hsj =>
              split at hi
              next e hx => cases hi
              next ps hx =>
                injection hi with hv2
                exact ⟨not_not.mp hst2, body, content, sj, xs, ps, hb, hc, hp, hsj,
                  hx, hv2.symm⟩

/-- C2 (amended): a successfully generated script has segment ids
numbered 1..k contiguously in response order, where k is the length of
the model's `segments` array — which equals the requested count exactly
when the model returned that many entries, but is not enforced against
the request. -/
theorem script_segment_count_follows_model (env : ScriptEnv) (prompt : String)
    (d s : Nat) (script : VideoScript)
    (h : generate_script_with_deepseek env prompt d s = .ok script) :
    script.segments.map ScriptSegment.segment_id = List.range' 1 script.segments.length
    ∧ ∃ body content sj xs,
        env.dsBody = some body
        ∧ messageContent body = some content
        ∧ parseScriptJson env content = .ok sj
        ∧ scriptSegmentsJson sj = .ok xs
        ∧ script.segments.length = xs.length := by
  obtain ⟨hst, body, content, sj, xs, ps, hb, hc, hp, hsj, hx, hscript⟩ :=
    generate_script_ok_shape env prompt d s script h
  subst hscript
  refine ⟨?_, body, content, sj, xs, hb, hc, hp, hsj, ?_⟩
  · simp only [mkSegments_ids, mkSegments_length, Nat.zero_add]
  · simp only [mkSegments_length]
    exact extractFields_length xs ps hx

/-- The DeepSeek response environment used for concrete runs: a
successful call whose content string "RESPONSE" parses to a payload with
`n` well-formed segments. -/
def goodPayload (n : Nat) : Json :=
  .obj [("segments", .arr ((List.range n).map fun i =>
    .obj [("segment_id", .num (i + 1)), ("content", .str "narration"),
          ("image_prompt", .str "image")]))]

/-- Script environment whose model answers with `n` segments. -/
def envS (n : Nat) : ScriptEnv :=
  { dsStatus := 200
  , dsText := ""
  , dsBody := some (.obj [("choices",
      .arr [.obj [("message", .obj [("content", .str "RESPONSE")])]])])
  , jsonLoads := fun t => if t = "RESPONSE" then some (goodPayload n) else none
  , fenceExtract := fun _ => none }

/-- The script produced by `envS 2` on a request for 3 segments. -/
def scriptTwoOfThree : VideoScript :=
  { segments :=
      [{ segment_id := 1, content := "narration",
         duration := ((30 : ℕ) : ℚ) / ((3 : ℕ) : ℚ), image_prompt := "image" },
       { segment_id := 2, content := "narration",
         duration := ((30 : ℕ) : ℚ) / ((3 : ℕ) : ℚ), image_prompt := "image" }]
  , total_duration := ((30 : ℕ) : ℚ) }

/-- C2 (counterexample): with a model response containing 2 segments on a
request for `segments = 3`, script generation succeeds and the returned
`VideoScript` has 2 entries, not the requested 3 — the code never checks
the model's array length against the request. -/
theorem script_segment_count_counterexample :
    generate_script_with_deepseek (envS 2) "p" 30 3 = .ok scriptTwoOfThree
    ∧ scriptTwoOfThree.segments.length ≠ 3 := by
  constructor
  · rfl
  · decide

/-- C6: every successfully generated script carries the uniform
`duration/segments` value in each segment's `duration` field — any
model-supplied duration is ignored — and segments are renumbered
1..N in response order. -/
theorem script_durations_uniform (env : ScriptEnv) (prompt : String)
    (d s : Nat) (script : VideoScript)
    (h : generate_script_with_deepseek env prompt d s = .ok script) :
    (∀ seg ∈ script.segments, seg.duration = (d : ℚ) / (s : ℚ))
    ∧ script.segments.map ScriptSegment.segment_id
        = List.range' 1 script.segments.length := by
  obtain ⟨hst, body, content, sj, xs, ps, hb, hc, hp, hsj, hx, hscript⟩ :=
    generate_script_ok_shape env prompt d s script h
  subst hscript
  constructor
  · intro seg hseg
    exact mkSegments_duration ((d : ℚ) / (s : ℚ)) ps 0 seg hseg
  · simp only [mkSegments_ids, mkSegments_length, Nat.zero_add]

/-- Whether a script-generation result is the wrapped provider error
(upstream non-success: the inner `HTTPException(503, "DeepSeek API
error: ...")`). -/
def isProviderFailure : Except Err VideoScript → Bool
  | .error (.scriptGenerationFailed (.providerError _ _)) => true
  | _ => false

/-- Whether a script-generation result is any failure. -/
def isFailure : Except Err VideoScript → Bool
  | .error _ => true
  | .ok _ => false

/-- The payload of a 200 response cannot be turned into the expected
shape: the body does not decode, the content cannot be extracted, the
content parses neither directly nor through the markdown fence, the
parse lacks a `segments` array, or some entry lacks its fields. -/
def payloadMalformed (env : ScriptEnv) : Bool :=
  match env.dsBody with
  | none => true
  | some body =>
    match messageContent body with
    | none => true
    | some content =>
      match parseScriptJson env content with
      | .error _ => true
      | .ok sj =>
        match scriptSegmentsJson sj with
        | .error _ => true
        | .ok xs => isErr (extractFields xs)

theorem parseScriptJson_not_provider (env : ScriptEnv) (content : String)
    (st : Nat) (bd : String) :
    parseScriptJson env content ≠ .error (.providerError st bd) := by
  unfold parseScriptJson
  split
  · simp
  · split
    · split <;> simp
    · simp

theorem scriptSegmentsJson_not_provider (sj : Json) (st : Nat) (bd : String) :
    scriptSegmentsJson sj ≠ .error (.providerError st bd) := by
  unfold scriptSegmentsJson
  split
  · simp
  · split <;> simp

theorem segmentFields_not_provider (j : Json) (st : Nat) (bd : String) :
    segmentFields j ≠ .error (.providerError st bd) := by
  unfold segmentFields
  split
  · simp
  · split
    · simp
    · split <;> simp

theorem extractFields_not_provider (xs : List Json) (st : Nat) (bd : String) :
    extractFields xs ≠ .error (.providerError st bd) := by
  induction xs with
  | nil =>
    unfold extractFields
    simp
  | cons j rest ih =>
    unfold extractFields
    split
    next e he =>
      intro h
      injection h with h2
      rw [h2] at he
      exact segmentFields_not_provider j st bd he
    next p hp =>
      split
      next e he =>
        intro h
        injection h with h2
        rw [h2] at he
        exact ih he
      next qs hq => simp

/-- C8: script generation fails with the (wrapped) provider error exactly
when the upstream call returns a non-success status; it fails with a
distinct malformed-payload error exactly when the call succeeded but the
payload cannot be parsed into the expected shape even after the fence
strip; and it succeeds in every remaining case — the two failure kinds
are disjoint, hence distinguishable by the caller. -/
theorem script_failure_kinds (env : ScriptEnv) (prompt : String) (d s : Nat) :
    (isProviderFailure (generate_script_with_deepseek env prompt d s) = true
      ↔ env.dsStatus ≠ 200)
    ∧ ((isFailure (generate_script_with_deepseek env prompt d s) = true
          ∧ isProviderFailure (generate_script_with_deepseek env prompt d s) = false)
        ↔ (env.dsStatus = 200 ∧ payloadMalformed env = true))
    ∧ (isFailure (generate_script_with_deepseek env prompt d s) = false
        ↔ (env.dsStatus = 200 ∧ payloadMalformed env = false)) := by
  by_cases hst : env.dsStatus = 200
  · have hif : ¬(env.dsStatus ≠ 200) := not_not.mpr hst
    rcases hb : env.dsBody with _ | body
    · have hgen : generate_script_with_deepseek env prompt d s
          = .error (.scriptGenerationFailed .jsonDecode) := by
        unfold generate_script_with_deepseek generateScriptInner
        rw [if_neg hif, hb]
      simp [hgen, payloadMalformed, hb, isFailure, isProviderFailure, hst]
    · rcases hc : messageContent body with _ | content
      · have hgen : generate_script_with_deepseek env prompt d s
            = .error (.scriptGenerationFailed (.keyError "choices.0.message.content")) := by
          unfold generate_script_with_deepseek generateScriptInner
          rw [if_neg hif, hb]
          simp only [hc]
        simp [hgen, payloadMalformed, hb, hc, isFailure, isProviderFailure, hst]
      · rcases hp : parseScriptJson env content with e | sj
        · have hgen : generate_script_with_deepseek env prompt d s
              = .error (.scriptGenerationFailed e) := by
            unfold generate_script_with_deepseek generateScriptInner
            rw [if_neg hif, hb]
            simp only [hc, hp]
          have hpe : ∀ st bd, e ≠ .providerError st bd := by
            intro st bd heq
            rw [heq] at hp
            exact parseScriptJson_not_provider env content st bd hp
          constructor
          · simp only [hgen, isProviderFailure]
            constructor
            · intro hfalse
              cases e <;> simp_all
            · intro hne
              exact absurd hst hne
          · simp [hgen, payloadMalformed, hb, hc, hp, isFailure, isProviderFailure, hst]
            cases e <;> simp_all [isProviderFailure]
        · rcases hsj : scriptSegmentsJson sj with e | xs
          · have hgen : generate_script_with_deepseek env prompt d s
                = .error (.scriptGenerationFailed e) := by
              unfold generate_script_with_deepseek generateScriptInner
              rw [if_neg hif, hb]
              simp only [hc, hp, hsj]
            have hpe : ∀ st bd, e ≠ .providerError st bd := by
              intro st bd heq
              rw [heq] at hsj
              exact scriptSegmentsJson_not_provider sj st bd hsj
            constructor
            · simp only [hgen, isProviderFailure]
              constructor
              · intro hfalse
                cases e <;> simp_all
              · intro hne
                exact absurd hst hne
            · simp [hgen, payloadMalformed, hb, hc, hp, hsj, isFailure, isProviderFailure, hst]
              cases e <;> simp_all [isProviderFailure]
          · rcases hx : extractFields xs with e | ps
            · have hgen : generate_script_with_deepseek env prompt d s
                  = .error (.scriptGenerationFailed e) := by
                unfold generate_script_with_deepseek generateScriptInner
                rw [if_neg hif, hb]
                simp only [hc, hp, hsj, hx]
              have hpe : ∀ st bd, e ≠ .providerError st bd := by
                intro st bd heq
                rw [heq] at hx
                exact extractFields_not_provider xs st bd hx
              constructor
              · simp only [hgen, isProviderFailure]
                constructor
                · intro hfalse
                  cases e <;> simp_all
                · intro hne
                  exact absurd hst hne
              · simp [hgen, payloadMalformed, hb, hc, hp, hsj, hx, isFailure,
                  isProviderFailure, hst, isErr]
                cases e <;> simp_all [isProviderFailure]
            · have hgen : generate_script_with_deepseek env prompt d s
                  = .ok { segments := mkSegments ((d : ℚ) / (s : ℚ)) ps 0,
                          total_duration := (d : ℚ) } := by
                unfold generate_script_with_deepseek generateScriptInner
                rw [if_neg hif, hb]
                simp only [hc, hp, hsj, hx]
              simp [hgen, payloadMalformed, hb, hc, hp, hsj, hx, isFailure,
                isProviderFailure, hst, isErr]
  · have hgen : generate_script_with_deepseek env prompt d s
        = .error (.scriptGenerationFailed (.providerError 503 env.dsText)) := by
      unfold generate_script_with_deepseek generateScriptInner
      rw [if_pos hst]
    simp [hgen, isFailure, isProviderFailure, hst]

theorem buildClips_all (env : AsmEnv) (l : List ScriptSegment)
    (h : ∀ seg ∈ l, env.imageExists seg.segment_id = true
        ∧ env.audioExists seg.segment_id = true) :
    (buildClips env l).2.1 = l.map (fun seg =>
        { segment_id := seg.segment_id,
          visual_duration := env.audioDuration seg.segment_id,
          audio_duration := env.audioDuration seg.segment_id })
    ∧ (buildClips env l).2.2 = none := by
  induction l with
  | nil => exact ⟨rfl, rfl⟩
  | cons seg rest ih =>
    have hseg := h seg (List.mem_cons_self seg rest)
    have hcond : (env.imageExists seg.segment_id && env.audioExists seg.segment_id) = true := by
      rw [hseg.1, hseg.2]
      rfl
    have ihr := ih fun x hx => h x (List.mem_cons_of_mem seg hx)
    simp only [buildClips, hcond, if_true, List.map_cons]
    exact ⟨by rw [ihr.1], ihr.2⟩

theorem buildClips_none_all (env : AsmEnv) (l : List ScriptSegment)
    (h : (buildClips env l).2.2 = none) :
    ∀ seg ∈ l, env.imageExists seg.segment_id = true
      ∧ env.audioExists seg.segment_id = true := by
  induction l with
  | nil =>
    intro seg hm
    cases hm
  | cons seg rest ih =>
    intro x hx
    by_cases hcond : (env.imageExists seg.segment_id && env.audioExists seg.segment_id) = true
    · rcases List.mem_cons.mp hx with rfl | hx2
      · exact ⟨(Bool.and_eq_true _ _).mp hcond |>.1, (Bool.and_eq_true _ _).mp hcond |>.2⟩
      · apply ih _ x hx2
        simpa only [buildClips, hcond, if_true] using h
    · exfalso
      rw [Bool.not_eq_true] at hcond
      simp only [buildClips, hcond, Bool.false_eq_true, if_false] at h
      cases h

theorem buildClips_some_missing (env : AsmEnv) (l : List ScriptSegment) (k : Nat)
    (h : (buildClips env l).2.2 = some k) :
    ∃ seg ∈ l, seg.segment_id = k
      ∧ (env.imageExists k = false ∨ env.audioExists k = false) := by
  induction l with
  | nil => cases h
  | cons seg rest ih =>
    by_cases hcond : (env.imageExists seg.segment_id && env.audioExists seg.segment_id) = true
    · have h2 : (buildClips env rest).2.2 = some k := by
        simpa only [buildClips, hcond, if_true] using h
      obtain ⟨x, hx, hxk, hmiss⟩ := ih h2
      exact ⟨x, List.mem_cons_of_mem seg hx, hxk, hmiss⟩
    · rw [Bool.not_eq_true] at hcond
      simp only [buildClips, hcond, Bool.false_eq_true, if_false] at h
      injection h with h2
      refine ⟨seg, List.mem_cons_self seg rest, h2, ?_⟩
      rw [← h2]
      rcases Bool.and_eq_false_iff.mp hcond with hi | ha
      · exact Or.inl hi
      · exact Or.inr ha

/-- C3: whenever both assets exist for every segment, the per-segment
clips built by `create_video_from_assets` are exactly one per script
segment in order, and each clip's visual (image) duration equals that
segment's measured audio duration — so whenever the measured duration
differs from the nominal script duration, the visual duration follows
the measured one, not the nominal one. -/
theorem visual_duration_follows_measured_audio (env : AsmEnv) (video_id : String)
    (script : VideoScript)
    (h : ∀ seg ∈ script.segments, env.imageExists seg.segment_id = true
        ∧ env.audioExists seg.segment_id = true) :
    (create_video_from_assets env video_id script).clips
      = script.segments.map (fun seg =>
          { segment_id := seg.segment_id,
            visual_duration := env.audioDuration seg.segment_id,
            audio_duration := env.audioDuration seg.segment_id })
    ∧ (∀ c ∈ (create_video_from_assets env video_id script).clips,
        c.visual_duration = env.audioDuration c.segment_id)
    ∧ (∀ seg ∈ script.segments, env.audioDuration seg.segment_id ≠ seg.duration →
        ∀ c ∈ (create_video_from_assets env video_id script).clips,
          c.segment_id = seg.segment_id →
            c.visual_duration ≠ seg.duration ∧ c.visual_duration
              = env.audioDuration seg.segment_id) := by
  obtain ⟨hclips, hnone⟩ := buildClips_all env script.segments h
  have hout : (create_video_from_assets env video_id script).clips
      = (buildClips env script.segments).2.1 := by
    by_cases hr : env.renderOk = true
    · simp only [create_video_from_assets, hnone, hr, if_true]
    · rw [Bool.not_eq_true] at hr
      simp only [create_video_from_assets, hnone, hr, Bool.false_eq_true, if_false]
  rw [hout, hclips]
  refine ⟨rfl, ?_, ?_⟩
  · intro c hc
    obtain ⟨seg, hseg, hmap⟩ := List.mem_map.mp hc
    rw [← hmap]
  · intro seg hseg hne c hc hcid
    obtain ⟨seg2, hseg2, hmap⟩ := List.mem_map.mp hc
    have hvd : c.visual_duration = env.audioDuration c.segment_id := by
      rw [← hmap]
    rw [hcid] at hvd
    exact ⟨by rw [hvd]; exact hne, hvd⟩

/-- C5: if any segment's image or audio asset is absent at its
deterministic path when assembly runs (and the pipeline reached
assembly), `create_video_from_assets` raises the wrapped missing-assets
error naming a genuinely missing segment, `write_videofile` is never
reached, and the record's update trace ends in `failed`; conversely
rendering is attempted only when both assets exist for every segment. -/
theorem missing_asset_aborts (env : PipelineEnv) (video_id prompt : String)
    (d s : Nat) (script : VideoScript)
    (hscript : generate_script_with_deepseek env.scriptEnv prompt d s = .ok script)
    (hassets : assetStageFails env.assetEnv video_id script = false)
    (hmiss : ∃ seg ∈ script.segments, env.asmEnv.imageExists seg.segment_id = false
        ∨ env.asmEnv.audioExists seg.segment_id = false) :
    (∃ k, (create_video_from_assets env.asmEnv video_id script).result
          = .error (.videoCreationFailed (.missingAssets k))
        ∧ ∃ seg ∈ script.segments, seg.segment_id = k
          ∧ (env.asmEnv.imageExists k = false ∨ env.asmEnv.audioExists k = false))
    ∧ (create_video_from_assets env.asmEnv video_id script).render_attempted = false
    ∧ (process_video_generation env video_id prompt d s).map DbUpdate.status
        = [.generating_script, .generating_assets, .creating_video, .failed]
    ∧ (∀ (env2 : AsmEnv) (vid2 : String) (script2 : VideoScript),
        (create_video_from_assets env2 vid2 script2).render_attempted = true →
        ∀ seg ∈ script2.segments, env2.imageExists seg.segment_id = true
          ∧ env2.audioExists seg.segment_id = true) := by
  have hnotnone : (buildClips env.asmEnv script.segments).2.2 ≠ none := by
    intro hnone
    obtain ⟨seg, hseg, hm⟩ := hmiss
    obtain ⟨hi, ha⟩ := buildClips_none_all env.asmEnv script.segments hnone seg hseg
    rcases hm with hm | hm
    · rw [hi] at hm
      cases hm
    · rw [ha] at hm
      cases hm
  obtain ⟨k, hk⟩ := Option.ne_none_iff_exists.mp hnotnone
  have hres : (create_video_from_assets env.asmEnv video_id script).result
      = .error (.videoCreationFailed (.missingAssets k)) := by
    simp only [create_video_from_assets, ← hk]
  have hra : (create_video_from_assets env.asmEnv video_id script).render_attempted
      = false := by
    simp only [create_video_from_assets, ← hk]
  refine ⟨⟨k, hres, buildClips_some_missing env.asmEnv script.segments k hk.symm⟩,
    hra, ?_, ?_⟩
  · have htr : process_video_generation env video_id prompt d s
        = [{ status := .generating_script, script := none, video_url := none, error := none },
           { status := .generating_assets, script := some script, video_url := none,
             error := none },
           { status := .creating_video, script := none, video_url := none, error := none },
           failedUpdate (.videoCreationFailed (.missingAssets k))] := by
      simp [process_video_generation, hscript, hassets, hres]
    rw [htr]
    simp [failedUpdate]
  · intro env2 vid2 script2 hra2
    rcases hm2 : (buildClips env2 script2.segments).2.2 with _ | k2
    · exact buildClips_none_all env2 script2.segments hm2
    · exfalso
      simp only [create_video_from_assets, hm2] at hra2
      cases hra2

/-- C7 (amended): `create_video_from_assets` closes clip handles only on
the success path — there the final clip and each per-segment image clip
receive a `close()` call, while no `close()` is ever issued directly on
an audio clip — and on every failure path (missing asset or failed
rendering) no `close()` call is made at all, since the cleanup lines sit
inside the `try` block after `write_videofile` with no `finally`. -/
theorem clips_closed_only_on_success (env : AsmEnv) (video_id : String)
    (script : VideoScript) :
    (∀ p, (create_video_from_assets env video_id script).result = .ok p →
      (create_video_from_assets env video_id script).closed
        = Handle.finalClip :: (create_video_from_assets env video_id script).clips.map
            (fun c => Handle.imageClip c.segment_id))
    ∧ (∀ e, (create_video_from_assets env video_id script).result = .error e →
      (create_video_from_assets env video_id script).closed = [])
    ∧ (∀ i, Handle.audioClip i ∉ (create_video_from_assets env video_id script).closed) := by
  rcases hm : (buildClips env script.segments).2.2 with _ | k
  · by_cases hr : env.renderOk = true
    · refine ⟨?_, ?_, ?_⟩
      · intro p hp
        simp only [create_video_from_assets, hm, hr, if_true]
      · intro e he
        simp only [create_video_from_assets, hm, hr, if_true] at he
        cases he
      · intro i
        simp only [create_video_from_assets, hm, hr, if_true]
        intro hmem
        rcases List.mem_cons.mp hmem with h1 | h2
        · cases h1
        · obtain ⟨c, hc, hcc⟩ := List.mem_map.mp h2
          cases hcc
    · rw [Bool.not_eq_true] at hr
      refine ⟨?_, ?_, ?_⟩
      · intro p hp
        simp only [create_video_from_assets, hm, hr, Bool.false_eq_true, if_false] at hp
        cases hp
      · intro e he
        simp only [create_video_from_assets, hm, hr, Bool.false_eq_true, if_false]
      · intro i
        simp only [create_video_from_assets, hm, hr, Bool.false_eq_true, if_false]
        exact List.not_mem_nil _
  · refine ⟨?_, ?_, ?_⟩
    · intro p hp
      simp only [create_video_from_assets, hm] at hp
      cases hp
    · intro e he
      simp only [create_video_from_assets, hm]
    · intro i
      simp only [create_video_from_assets, hm]
      exact List.not_mem_nil _

/-- Assembly environment where every asset exists but rendering fails. -/
def asmEnvNoRender : AsmEnv :=
  { imageExists := fun _ => true, audioExists := fun _ => true,
    audioDuration := fun _ => 3, renderOk := false }

/-- A one-segment script. -/
def scriptOne : VideoScript :=
  { segments := [{ segment_id := 1, content := "c", duration := 10, image_prompt := "p" }]
  , total_duration := 10 }

/-- C7 (counterexample): with all assets present but `write_videofile`
failing, clip handles were created (the segment's audio clip among them)
yet no `close()` call is issued on this failing execution path — the
claim that every intermediate handle is released on every path is false
on the code. -/
theorem clips_not_closed_on_failure_counterexample :
    isErr (create_video_from_assets asmEnvNoRender "vid" scriptOne).result = true
    ∧ Handle.audioClip 1 ∈ (create_video_from_assets asmEnvNoRender "vid" scriptOne).created
    ∧ (create_video_from_assets asmEnvNoRender "vid" scriptOne).closed = [] := by
  refine ⟨rfl, ?_, rfl⟩
  show Handle.audioClip 1 ∈ [Handle.audioClip 1, Handle.imageClip 1, Handle.finalClip]
  exact List.mem_cons_self _ _

/-- C4: `generate_image_with_dalle` never fails outward on a provider
error — when the provider fails and the fallback succeeds it still
returns the same deterministic `(generationId, segmentId)` path — its
result is an error exactly when both the provider and the fallback fail,
and in a pipeline whose image fallbacks all succeed (and whose audio
side resolves), image-provider failures never abort the pipeline: the
asset stage does not fail and the record still reaches
`creating_video`. -/
theorem image_fallback_never_fails_outward (env : AssetEnv) (prompt video_id : String)
    (sid : Nat) :
    (env.imageProviderOk sid = false → env.imageFallbackOk sid = true →
      generate_image_with_dalle env prompt sid video_id = .ok (imagePath video_id sid))
    ∧ (isErr (generate_image_with_dalle env prompt sid video_id) = true
        ↔ (env.imageProviderOk sid = false ∧ env.imageFallbackOk sid = false))
    ∧ (∀ (penv : PipelineEnv) (vid p : String) (d s : Nat) (script : VideoScript),
        generate_script_with_deepseek penv.scriptEnv p d s = .ok script →
        (∀ seg ∈ script.segments, penv.assetEnv.imageFallbackOk seg.segment_id = true) →
        (∀ seg ∈ script.segments, penv.assetEnv.audioProviderOk seg.segment_id = true
            ∨ penv.assetEnv.audioFallbackOk seg.segment_id = true) →
        assetStageFails penv.assetEnv vid script = false
        ∧ Status.creating_video
            ∈ (process_video_generation penv vid p d s).map DbUpdate.status) := by
  refine ⟨?_, ?_, ?_⟩
  · intro h1 h2
    simp [generate_image_with_dalle, create_placeholder_image, h1, h2]
  · rcases h1 : env.imageProviderOk sid <;> rcases h2 : env.imageFallbackOk sid <;>
      simp [generate_image_with_dalle, create_placeholder_image, isErr, h1, h2]
  · intro penv vid p d s script hscript hfall haud
    have hstage : assetStageFails penv.assetEnv vid script = false := by
      rw [assetStageFails, List.any_eq_false]
      intro pr hpr
      rw [assetResults] at hpr
      obtain ⟨seg, hseg, rfl⟩ := List.mem_map.mp hpr
      have himg : isErr (generate_image_with_dalle penv.assetEnv seg.image_prompt
          seg.segment_id vid) = false := by
        rcases hprov : penv.assetEnv.imageProviderOk seg.segment_id
        · simp [generate_image_with_dalle, create_placeholder_image, hprov,
            hfall seg hseg, isErr]
        · simp [generate_image_with_dalle, hprov, isErr]
      have haud2 : isErr (generate_audio_with_tts penv.assetEnv seg.content
          seg.segment_id vid) = false := by
        rcases hprov : penv.assetEnv.audioProviderOk seg.segment_id
        · rcases haud seg hseg with h | h
          · rw [hprov] at h
            cases h
          · simp [generate_audio_with_tts, create_placeholder_audio, hprov, h, isErr]
        · simp [generate_audio_with_tts, hprov, isErr]
      simp [himg, haud2]
    refine ⟨hstage, ?_⟩
    rcases ha : (create_video_from_assets penv.asmEnv vid script).result with e | q
    · have htr : process_video_generation penv vid p d s
          = [{ status := .generating_script, script := none, video_url := none, error := none },
             { status := .generating_assets, script := some script, video_url := none,
               error := none },
             { status := .creating_video, script := none, video_url := none, error := none },
             failedUpdate e] := by
        simp [process_video_generation, hscript, hstage, ha]
      rw [htr]
      simp [failedUpdate]
    · have htr : process_video_generation penv vid p d s
          = [{ status := .generating_script, script := none, video_url := none, error := none },
             { status := .generating_assets, script := some script, video_url := none,
               error := none },
             { status := .creating_video, script := none, video_url := none, error := none },
             { status := .completed, script := none,
               video_url := some ("/api/videos/" ++ vid ++ ".mp4"), error := none }] := by
        simp [process_video_generation, hscript, hstage, ha]
      rw [htr]
      simp

/-! ## Concrete environments and witness instantiations -/

/-- Asset environment where every provider and every fallback succeed. -/
def assetEnvAll : AssetEnv :=
  { imageProviderOk := fun _ => true, imageFallbackOk := fun _ => true,
    audioProviderOk := fun _ => true, audioFallbackOk := fun _ => true }

/-- Asset environment where the image provider is down but every
fallback succeeds. -/
def assetEnvProviderDown : AssetEnv :=
  { imageProviderOk := fun _ => false, imageFallbackOk := fun _ => true,
    audioProviderOk := fun _ => true, audioFallbackOk := fun _ => true }

/-- Assembly environment where all assets exist and rendering works. -/
def asmEnvAll : AsmEnv :=
  { imageExists := fun _ => true, audioExists := fun _ => true,
    audioDuration := fun _ => 3, renderOk := true }

/-- Assembly environment where segment 2's audio file is absent. -/
def asmEnvMissingAudio2 : AsmEnv :=
  { imageExists := fun _ => true, audioExists := fun i => decide (i ≠ 2),
    audioDuration := fun _ => 3, renderOk := true }

/-- Happy-path pipeline environment. -/
def envP : PipelineEnv :=
  { scriptEnv := envS 3, assetEnv := assetEnvAll, asmEnv := asmEnvAll }

/-- Pipeline environment whose assembly-time file system lacks
segment 2's audio. -/
def envP5 : PipelineEnv :=
  { scriptEnv := envS 3, assetEnv := assetEnvAll, asmEnv := asmEnvMissingAudio2 }

/-- Pipeline environment with the image provider down. -/
def envP4 : PipelineEnv :=
  { scriptEnv := envS 3, assetEnv := assetEnvProviderDown, asmEnv := asmEnvAll }

/-- The script `envS 3` yields on a (duration 30, segments 3) request. -/
def scriptThree : VideoScript :=
  { segments :=
      [{ segment_id := 1, content := "narration",
         duration := ((30 : ℕ) : ℚ) / ((3 : ℕ) : ℚ), image_prompt := "image" },
       { segment_id := 2, content := "narration",
         duration := ((30 : ℕ) : ℚ) / ((3 : ℕ) : ℚ), image_prompt := "image" },
       { segment_id := 3, content := "narration",
         duration := ((30 : ℕ) : ℚ) / ((3 : ℕ) : ℚ), image_prompt := "image" }]
  , total_duration := ((30 : ℕ) : ℚ) }

theorem status_machine_monotonic_witness :
    List.Chain' stepOk
      (Status.processing ::
        (process_video_generation envP "vid" "p" 30 3).map DbUpdate.status)
    ∧ (∀ st ∈ (Status.processing ::
          (process_video_generation envP "vid" "p" 30 3).map DbUpdate.status).dropLast,
        st ≠ Status.completed ∧ st ≠ Status.failed)
    ∧ (∀ u ∈ process_video_generation envP "vid" "p" 30 3,
        u.status = Status.generating_assets →
          ∃ sc, generate_script_with_deepseek envP.scriptEnv "p" 30 3 = .ok sc
            ∧ u.script = some sc) :=
  status_machine_monotonic envP "vid" "p" 30 3

theorem script_segment_count_follows_model_witness :
    scriptThree.segments.map ScriptSegment.segment_id
        = List.range' 1 scriptThree.segments.length
    ∧ ∃ body content sj xs,
        (envS 3).dsBody = some body
        ∧ messageContent body = some content
        ∧ parseScriptJson (envS 3) content = .ok sj
        ∧ scriptSegmentsJson sj = .ok xs
        ∧ scriptThree.segments.length = xs.length :=
  script_segment_count_follows_model (envS 3) "p" 30 3 scriptThree rfl

theorem script_durations_uniform_witness :
    (∀ seg ∈ scriptThree.segments, seg.duration = ((30 : ℕ) : ℚ) / ((3 : ℕ) : ℚ))
    ∧ scriptThree.segments.map ScriptSegment.segment_id
        = List.range' 1 scriptThree.segments.length :=
  script_durations_uniform (envS 3) "p" 30 3 scriptThree rfl

theorem script_failure_kinds_witness :
    (isProviderFailure (generate_script_with_deepseek (envS 3) "p" 30 3) = true
      ↔ (envS 3).dsStatus ≠ 200)
    ∧ ((isFailure (generate_script_with_deepseek (envS 3) "p" 30 3) = true
          ∧ isProviderFailure (generate_script_with_deepseek (envS 3) "p" 30 3) = false)
        ↔ ((envS 3).dsStatus = 200 ∧ payloadMalformed (envS 3) = true))
    ∧ (isFailure (generate_script_with_deepseek (envS 3) "p" 30 3) = false
        ↔ ((envS 3).dsStatus = 200 ∧ payloadMalformed (envS 3) = false)) :=
  script_failure_kinds (envS 3) "p" 30 3

theorem visual_duration_follows_measured_audio_witness :
    (create_video_from_assets asmEnvAll "vid" scriptThree).clips
      = scriptThree.segments.map (fun seg =>
          { segment_id := seg.segment_id,
            visual_duration := asmEnvAll.audioDuration seg.segment_id,
            audio_duration := asmEnvAll.audioDuration seg.segment_id })
    ∧ (∀ c ∈ (create_video_from_assets asmEnvAll "vid" scriptThree).clips,
        c.visual_duration = asmEnvAll.audioDuration c.segment_id)
    ∧ (∀ seg ∈ scriptThree.segments,
        asmEnvAll.audioDuration seg.segment_id ≠ seg.duration →
        ∀ c ∈ (create_video_from_assets asmEnvAll "vid" scriptThree).clips,
          c.segment_id = seg.segment_id →
            c.visual_duration ≠ seg.duration ∧ c.visual_duration
              = asmEnvAll.audioDuration seg.segment_id) :=
  visual_duration_follows_measured_audio asmEnvAll "vid" scriptThree
    (fun _ _ => ⟨rfl, rfl⟩)

theorem missing_asset_aborts_witness :
    (create_video_from_assets envP5.asmEnv "vid" scriptThree).render_attempted = false
    ∧ (process_video_generation envP5 "vid" "p" 30 3).map DbUpdate.status
        = [.generating_script, .generating_assets, .creating_video, .failed] :=
  ⟨(missing_asset_aborts envP5 "vid" "p" 30 3 scriptThree rfl rfl
      ⟨{ segment_id := 2, content := "narration",
         duration := ((30 : ℕ) : ℚ) / ((3 : ℕ) : ℚ), image_prompt := "image" },
       by simp [scriptThree], Or.inr rfl⟩).2.1,
   (missing_asset_aborts envP5 "vid" "p" 30 3 scriptThree rfl rfl
      ⟨{ segment_id := 2, content := "narration",
         duration := ((30 : ℕ) : ℚ) / ((3 : ℕ) : ℚ), image_prompt := "image" },
       by simp [scriptThree], Or.inr rfl⟩).2.2.1⟩

theorem clips_closed_only_on_success_witness :
    (create_video_from_assets asmEnvAll "vid" scriptThree).closed
      = Handle.finalClip :: (create_video_from_assets asmEnvAll "vid" scriptThree).clips.map
          (fun c => Handle.imageClip c.segment_id) :=
  (clips_closed_only_on_success asmEnvAll "vid" scriptThree).1 (videoPath "vid") rfl

theorem image_fallback_never_fails_outward_witness :
    generate_image_with_dalle assetEnvProviderDown "image" 1 "vid"
        = .ok (imagePath "vid" 1)
    ∧ assetStageFails envP4.assetEnv "vid" scriptThree = false
    ∧ Status.creating_video
        ∈ (process_video_generation envP4 "vid" "p" 30 3).map DbUpdate.status :=
  ⟨(image_fallback_never_fails_outward assetEnvProviderDown "image" "vid" 1).1 rfl rfl,
   ((image_fallback_never_fails_outward assetEnvProviderDown "image" "vid" 1).2.2
      envP4 "vid" "p" 30 3 scriptThree rfl (fun _ _ => rfl)
      (fun _ _ => Or.inl rfl)).1,
   ((image_fallback_never_fails_outward assetEnvProviderDown "image" "vid" 1).2.2
      envP4 "vid" "p" 30 3 scriptThree rfl (fun _ _ => rfl)
      (fun _ _ => Or.inl rfl)).2⟩

/-- A record stuck in `creating_video`. -/
def recCreating : VideoGeneration :=
  { id := "vid", prompt := "p", duration := 30, segments := 3,
    status := .creating_video, video_url := none, script := none, created_at := 0 }

/-- A record store holding only `recCreating` under id "vid". -/
def recW : String → Option VideoGeneration :=
  fun s => if s = "vid" then some recCreating else none

/-- A file system on which exactly "vid"'s video file exists. -/
def fsW : String → Bool :=
  fun s => s = videoPath "vid"

theorem get_video_file_ignores_record_witness :
    get_video_file recW fsW "vid" = .ok (videoPath "vid") :=
  (get_video_file_ignores_record recW fsW "vid").2.2.2 (by simp [fsW])
    recCreating (by simp [recW]) (by simp [recCreating])

/-- 101 generation records with distinct creation times. -/
def recsW : List VideoGeneration :=
  (List.range 101).map fun i =>
    { id := "r", prompt := "p", duration := 60, segments := 3,
      status := .completed, video_url := none, script := none, created_at := i }

theorem list_videos_truncates_to_100_witness :
    recsW.length > 100 ∧ (list_videos recsW).length = 100 :=
  ⟨by simp [recsW],
   (list_videos_truncates_to_100 recsW).2.1 (by simp [recsW])⟩

end AiVideo
